import Mathlib

/-!
Shallow embedding of the BME280 driver (`src/bibis/bme280.c`, mikroC PRO for
PIC on PIC18F25K50) and proofs about it.

mikroC PRO for PIC integer model: `short` is 8-bit, `int` is 16-bit, `long`
is 32-bit, two's complement, signed overflow wraps.  Signed division `/`
truncates toward zero (C99).  We model machine integers as `Int` with
explicit wrap helpers, and C division by a positive divisor as `cdiv`.
-/

namespace BME280

/-- Two's-complement wrap to signed 32-bit. -/
def toS32 (x : Int) : Int := (x + 2147483648) % 4294967296 - 2147483648

/-- Two's-complement wrap to signed 16-bit (mikroC `int`). -/
def toS16 (x : Int) : Int := (x + 32768) % 65536 - 32768

/-- Two's-complement wrap to signed 8-bit (mikroC `short`). -/
def toS8 (x : Int) : Int := (x + 128) % 256 - 128

/-- Reinterpretation as unsigned 32-bit (mikroC `unsigned long`). -/
def toU32 (x : Int) : Int := x % 4294967296

/-- C signed division for a positive divisor: truncation toward zero. -/
def cdiv (a b : Int) : Int := if 0 ≤ a then a / b else -((-a) / b)

/-- The calibration coefficient set (`calib_bme280` in `bme280.h`).
Fields hold the mathematical values of the stored machine integers:
`dig_T1`, `dig_P1` are 16-bit unsigned, `dig_T2..dig_T3`, `dig_P2..dig_P9`,
`dig_H2` are 16-bit signed, `dig_H1`, `dig_H3` are 8-bit unsigned,
`dig_H4`, `dig_H5` are the sign-extended packed 12-bit values stored in a
16-bit signed field, `dig_H6` is 8-bit signed. -/
structure Calib where
  dig_T1 : Int
  dig_T2 : Int
  dig_T3 : Int
  dig_P1 : Int
  dig_P2 : Int
  dig_P3 : Int
  dig_P4 : Int
  dig_P5 : Int
  dig_P6 : Int
  dig_P7 : Int
  dig_P8 : Int
  dig_P9 : Int
  dig_H1 : Int
  dig_H2 : Int
  dig_H3 : Int
  dig_H4 : Int
  dig_H5 : Int
  dig_H6 : Int


/-! ### Temperature compensation (`ReadTemperature`, bme280.c lines 216-233)

`var1 = ((((adc_T / 8) - ((long)dig_T1 * 2))) * ((long)dig_T2)) / 2048;`
`var2 = (((((adc_T / 16) - ((long)dig_T1)) * ((adc_T / 16) - ((long)dig_T1))) / 4096) * ((long)dig_T3)) / 16384;`
`t_fine = var1 + var2;  *temp = (t_fine * 5 + 128) / 256;`
every arithmetic step on `long` operands wraps to 32 bits. -/

def tempVar1 (c : Calib) (adcT : Int) : Int :=
  cdiv (toS32 (toS32 (cdiv adcT 8 - toS32 (c.dig_T1 * 2)) * c.dig_T2)) 2048

def tempVar2 (c : Calib) (adcT : Int) : Int :=
  cdiv (toS32 (cdiv (toS32 (toS32 (cdiv adcT 16 - c.dig_T1) *
    toS32 (cdiv adcT 16 - c.dig_T1))) 4096 * c.dig_T3)) 16384

/-- `ReadTemperature` body after `BME280_Update`: returns `(t_fine, *temp)`. -/
def readTemperatureC (c : Calib) (adcT : Int) : Int × Int :=
  let var1 := tempVar1 c adcT
  let var2 := tempVar2 c adcT
  let tfine := toS32 (var1 + var2)
  (tfine, cdiv (toS32 (toS32 (tfine * 5) + 128)) 256)

/-! ### Pressure compensation (`ReadPressure`, bme280.c lines 262-293) -/

/-- The final value of `var1` before the divide-by-zero guard
(bme280.c lines 267-273). -/
def pressureVar1 (c : Calib) (tfine : Int) : Int :=
  let v1 := toS32 (cdiv tfine 2 - 64000)
  let q  := cdiv v1 4
  let q2 := toS32 (q * q)
  let t3 := cdiv (toS32 (c.dig_P3 * cdiv q2 8192)) 8
  let t5 := cdiv (toS32 (c.dig_P2 * v1)) 2
  let vb := cdiv (toS32 (t3 + t5)) 262144
  cdiv (toS32 (toS32 (32768 + vb) * c.dig_P1)) 32768

/-- The final value of `var2` before the guard (bme280.c lines 268-270). -/
def pressureVar2 (c : Calib) (tfine : Int) : Int :=
  let v1 := toS32 (cdiv tfine 2 - 64000)
  let q  := cdiv v1 4
  let q2 := toS32 (q * q)
  let va := toS32 (cdiv q2 2048 * c.dig_P6)
  let vb := toS32 (va + toS32 (toS32 (v1 * c.dig_P5) * 2))
  toS32 (cdiv vb 4 + toS32 (c.dig_P4 * 65536))

/-- `ReadPressure` body: `none` models the `return 0` failure path (the
output pointer is not written); `some p` models `return 1` with `*pres = p`. -/
def readPressureC (c : Calib) (adcP : Int) (tfine : Int) : Option Int :=
  let var1 := pressureVar1 c tfine
  let var2 := pressureVar2 c tfine
  if var1 = 0 then none
  else
    let p0 := toU32 (toU32 (toU32 (toS32 (1048576 - adcP)) - toU32 (cdiv var2 4096)) * 3125)
    let p1 := if p0 < 2147483648
              then (toU32 (p0 * 2)) / (toU32 var1)
              else toU32 ((p0 / toU32 var1) * 2)
    let w1 := cdiv (toS32 (c.dig_P9 * toS32 ((toU32 ((p1 / 8) * (p1 / 8))) / 8192))) 4096
    let w2 := cdiv (toS32 (toS32 (p1 / 4) * c.dig_P8)) 8192
    some (toU32 (toS32 (toS32 p1 + cdiv (toS32 (toS32 (w1 + w2) + c.dig_P7)) 16)))

/-! ### Humidity compensation (`ReadHumidity`, bme280.c lines 236-259) -/

/-- Value of `v_x1_u32r` after the second big assignment (line 248),
i.e. the value the clamp is applied to. -/
def humidityPreClamp (c : Calib) (adcH : Int) (tfine : Int) : Int :=
  let v1 := toS32 (tfine - 76800)
  let a  := toS32 (adcH * 16384)
  let b  := toS32 (c.dig_H4 * 1048576)
  let cc := toS32 (c.dig_H5 * v1)
  let e  := toS32 (toS32 (toS32 (a - b) - cc) + 16384)
  let f  := cdiv e 32768
  let g  := cdiv (toS32 (v1 * c.dig_H6)) 1024
  let k  := toS32 (cdiv (toS32 (v1 * c.dig_H3)) 2048 + 32768)
  let m  := cdiv (toS32 (g * k)) 1024
  let n  := toS32 (m + 2097152)
  let q  := cdiv (toS32 (toS32 (n * c.dig_H2) + 8192)) 16384
  let v2 := toS32 (f * q)
  let r  := cdiv v2 32768
  let t  := cdiv (toS32 (r * r)) 128
  let v  := cdiv (toS32 (t * c.dig_H1)) 16
  toS32 (v2 - v)

/-- Value of `v_x1_u32r` after the two clamping lines (252-253). -/
def humidityClamped (c : Calib) (adcH : Int) (tfine : Int) : Int :=
  let v := humidityPreClamp c adcH tfine
  let v := if v < 0 then 0 else v
  if v > 419430400 then 419430400 else v

/-- `ReadHumidity` body: returns the value stored through `*humi`. -/
def readHumidityC (c : Calib) (adcH : Int) (tfine : Int) : Int :=
  toU32 (cdiv (humidityClamped c adcH tfine) 4096)

/-! ### Bosch 32-bit fixed-point reference compensation

Modelled from the spec: the spec's compensation contract is "Bosch's
documented 32-bit fixed-point integer algorithm (not the 64-bit variant)",
whose source is not part of this repository.  In the reference algorithm
every rescaling step is an arithmetic shift (floor division by a power of
two, written `/` below, which is floor division on `Int`), in contrast to
the repository code's C `/` which truncates toward zero. -/

/-- Modelled from the spec: Bosch reference `BME280_compensate_T_int32`;
returns `(t_fine, T)`. -/
def refTemperature (c : Calib) (adcT : Int) : Int × Int :=
  let var1 := toS32 ((adcT / 8 - toS32 (c.dig_T1 * 2)) * c.dig_T2) / 2048
  let var2 := toS32 (toS32 ((adcT / 16 - c.dig_T1) * (adcT / 16 - c.dig_T1)) / 4096
                * c.dig_T3) / 16384
  let tfine := toS32 (var1 + var2)
  (tfine, toS32 (toS32 (tfine * 5) + 128) / 256)

/-- Modelled from the spec: Bosch reference `BME280_compensate_P_int32`
(the 32-bit variant); `none` is the `var1 == 0` failure return. -/
def refPressure (c : Calib) (adcP : Int) (tfine : Int) : Option Int :=
  let v1 := toS32 (tfine / 2 - 64000)
  let q  := v1 / 4
  let q2 := toS32 (q * q)
  let va := toS32 (q2 / 2048 * c.dig_P6)
  let vb := toS32 (va + toS32 (toS32 (v1 * c.dig_P5) * 2))
  let var2 := toS32 (vb / 4 + toS32 (c.dig_P4 * 65536))
  let t3 := toS32 (c.dig_P3 * (q2 / 8192)) / 8
  let t5 := toS32 (c.dig_P2 * v1) / 2
  let vc := toS32 (t3 + t5) / 262144
  let var1 := toS32 (toS32 (32768 + vc) * c.dig_P1) / 32768
  if var1 = 0 then none
  else
    let p0 := toU32 (toU32 (toU32 (toS32 (1048576 - adcP)) - toU32 (var2 / 4096)) * 3125)
    let p1 := if p0 < 2147483648
              then (toU32 (p0 * 2)) / (toU32 var1)
              else toU32 ((p0 / toU32 var1) * 2)
    let w1 := toS32 (c.dig_P9 * toS32 ((toU32 ((p1 / 8) * (p1 / 8))) / 8192)) / 4096
    let w2 := toS32 (toS32 (p1 / 4) * c.dig_P8) / 8192
    some (toU32 (toS32 (toS32 p1 + toS32 (toS32 (w1 + w2) + c.dig_P7) / 16)))

/-! ### Device discovery (`BME280_TestConnection`, bme280.c lines 78-95)

The bus is abstracted by `wr : Nat → Nat`, the return value of `I2C1_Wr`
for a given address byte (`0` means the write was acknowledged). -/

/-- One iteration of the discovery `for` loop body (without the `break`). -/
def testConnStep (wr : Nat → Nat) (i : Nat) (found : Nat) : Nat :=
  if i = 0 then (if wr 0xEC = 0 then 0xEC else found)
  else (if wr 0xEE = 0 then 0xEE else found)

/-- The discovery loop: iterations in order, `if(found) break;`. -/
def testConnLoop (wr : Nat → Nat) : List Nat → Nat → Nat
  | [], found => found
  | i :: rest, found =>
      let found1 := testConnStep wr i found
      if found1 ≠ 0 then found1 else testConnLoop wr rest found1

def BME280_TestConnection (wr : Nat → Nat) : Nat :=
  testConnLoop wr [0, 1] 0

/-! ### Configuration (`BME280_Configure`, bme280.c lines 98-111)

Returns the three bytes written, in write order:
`(ctrl_hum @0xF2, config @0xF5, ctrl_meas @0xF4)`.  The `% 256` models the
8-bit `unsigned short` register variables the values are stored into. -/

def BME280_Configure (mode Ts Hs Ps filt stby : Nat) : Nat × Nat × Nat :=
  let ctrlHum := Hs % 256
  let config := (((stby <<< 5) ||| (filt <<< 2)) &&& 0xFC) % 256
  let ctrlMeas := (((Ts <<< 5) ||| (Ps <<< 2)) ||| mode) % 256
  (ctrlHum, config, ctrlMeas)

/-- Spec-side decoder: reconstructs the argument tuple from the three
written register bytes via the documented bit layout. -/
def decodeConfig (ctrlHum config ctrlMeas : Nat) :
    Nat × Nat × Nat × Nat × Nat × Nat :=
  (ctrlMeas &&& 3, ctrlMeas >>> 5, ctrlHum, (ctrlMeas >>> 2) &&& 7,
   (config >>> 2) &&& 7, config >>> 5)

/-! ### Initialization (`BME280_begin`, bme280.c lines 114-164)

The I2C bus is abstracted by the trace `resp : List Nat` of bytes returned
by the successive `I2C_Read` calls, in order.  `I2C_Read16` consumes two
bytes, low byte first (little-endian assembly through the byte/word union).
The result records the register writes performed, in order; `none` means
the trace ended before the routine returned (e.g. the calibration-ready
poll never saw bit 0 clear). -/

/-- `I2C_Read8`: consume one response byte. -/
def rd8 : List Nat → Option (Nat × List Nat)
  | [] => none
  | b :: rest => some (b, rest)

/-- `I2C_Read16`: consume two response bytes, assembled little-endian. -/
def rd16 : List Nat → Option (Nat × List Nat)
  | lo :: hi :: rest => some (lo + 256 * hi, rest)
  | _ => none

/-- The `while((I2C_Read8(STATUS) & 0x01) == 0x01)` poll: consume status
bytes until one has bit 0 clear. -/
def statusPoll : List Nat → Option (List Nat)
  | [] => none
  | b :: rest => if b &&& 1 = 1 then statusPoll rest else some rest

/-- H4 packing as performed at bme280.c lines 149-152, as the raw 16-bit
pattern held by the `int dig_H4` field: `(e4 << 4) | (e5 & 0x0F)`, then
`|= 0xF000` when bit 0x0800 is set. -/
def unpackH4raw (e4 e5 : Nat) : Nat :=
  let v := (e4 <<< 4) ||| (e5 &&& 0x0F)
  if v &&& 0x0800 ≠ 0 then v ||| 0xF000 else v

/-- H5 packing as performed at bme280.c lines 154-157:
`(e6 << 4) | (e5 >> 4)`, then `|= 0xF000` when bit 0x0800 is set. -/
def unpackH5raw (e5 e6 : Nat) : Nat :=
  let v := (e6 <<< 4) ||| (e5 >>> 4)
  if v &&& 0x0800 ≠ 0 then v ||| 0xF000 else v

/-- The value of the signed 16-bit `dig_H4` field. -/
def unpackH4 (e4 e5 : Nat) : Int := toS16 (unpackH4raw e4 e5)

/-- The value of the signed 16-bit `dig_H5` field. -/
def unpackH5 (e5 e6 : Nat) : Int := toS16 (unpackH5raw e5 e6)

/-- The 18 calibration reads of `BME280_begin` (lines 128-159), consuming
33 trace bytes in read order: T1..T3, P1..P9 (two bytes each, low byte
first as assembled by `I2C_Read16`), H1, H2 (two bytes), H3, then the four
byte reads for H4/H5 (registers E4, E5, then E6, E5) and H6.  Signed
fields reinterpret the unsigned wire value (`toS16` / `toS8`). -/
def readCalib : List Nat → Option (Calib × List Nat)
  | t1l :: t1h :: t2l :: t2h :: t3l :: t3h ::
    p1l :: p1h :: p2l :: p2h :: p3l :: p3h :: p4l :: p4h :: p5l :: p5h ::
    p6l :: p6h :: p7l :: p7h :: p8l :: p8h :: p9l :: p9h ::
    h1 :: h2l :: h2h :: h3 :: e4 :: e5a :: e6 :: e5b :: h6 :: rest =>
      some ({ dig_T1 := (t1l + 256 * t1h : Nat)
              dig_T2 := toS16 (t2l + 256 * t2h)
              dig_T3 := toS16 (t3l + 256 * t3h)
              dig_P1 := (p1l + 256 * p1h : Nat)
              dig_P2 := toS16 (p2l + 256 * p2h)
              dig_P3 := toS16 (p3l + 256 * p3h)
              dig_P4 := toS16 (p4l + 256 * p4h)
              dig_P5 := toS16 (p5l + 256 * p5h)
              dig_P6 := toS16 (p6l + 256 * p6h)
              dig_P7 := toS16 (p7l + 256 * p7h)
              dig_P8 := toS16 (p8l + 256 * p8h)
              dig_P9 := toS16 (p9l + 256 * p9h)
              dig_H1 := (h1 : Nat)
              dig_H2 := toS16 (h2l + 256 * h2h)
              dig_H3 := (h3 : Nat)
              dig_H4 := unpackH4 e4 e5a
              dig_H5 := unpackH5 e5b e6
              dig_H6 := toS8 h6 }, rest)
  | _ => none

/-- Outcome of `BME280_begin`: the returned flag, the `(register, value)`
writes performed in order, and the calibration set stored (when reached). -/
structure BeginOut where
  ret : Nat
  writes : List (Nat × Nat)
  calib : Option Calib


def BME280_begin (mode Ts Hs Ps filt stby : Nat) (resp : List Nat) :
    Option BeginOut :=
  match resp with
  | [] => none
  | chip :: rest =>
    if chip = 0x60 then
      match statusPoll rest with
      | none => none
      | some r =>
        match readCalib r with
        | none => none
        | some (c, _) =>
          let (hum, cfg, meas) := BME280_Configure mode Ts Hs Ps filt stby
          some ⟨1, [(0xE0, 0xB6), (0xF2, hum), (0xF5, cfg), (0xF4, meas)], some c⟩
    else some ⟨0, [], none⟩

/-! ### Global driver state and the three read operations

The module's global variables (`adc_T`, `adc_P`, `adc_H`, `t_fine`,
`BME280_calib`) form the driver state.  `BME280_Update` (lines 181-213) is
the only raw-sample acquisition; it consumes the 8-byte burst starting at
register 0xF7.  `ReadTemperature` calls it and then writes `t_fine`;
`ReadHumidity` and `ReadPressure` only read the state. -/

structure DriverState where
  adc_T : Int
  adc_P : Int
  adc_H : Int
  t_fine : Int
  calib : Calib


/-- The 8 bytes of the burst read (registers 0xF7..0xFE). -/
structure Burst where
  p_msb : Nat
  p_lsb : Nat
  p_xlsb : Nat
  t_msb : Nat
  t_lsb : Nat
  t_xlsb : Nat
  h_msb : Nat
  h_lsb : Nat


/-- `BME280_Update`: assembles each 20-bit ADC value as the 24-bit
big-endian triple shifted right 4 (through the byte/dword union, whose
`b[0]` is the least significant byte), and humidity as plain 16-bit. -/
def BME280_Update (b : Burst) (s : DriverState) : DriverState :=
  { s with
    adc_P := (((b.p_xlsb + 256 * b.p_lsb + 65536 * b.p_msb) >>> 4) &&& 0xFFFFF : Nat)
    adc_T := (((b.t_xlsb + 256 * b.t_lsb + 65536 * b.t_msb) >>> 4) &&& 0xFFFFF : Nat)
    adc_H := ((b.h_lsb + 256 * b.h_msb) &&& 0xFFFF : Nat) }

/-- `ReadTemperature`: updates the raw sample, computes and stores
`t_fine`, returns the new state and the value stored through `*temp`. -/
def ReadTemperatureS (b : Burst) (s : DriverState) : DriverState × Int :=
  let s1 := BME280_Update b s
  let r := readTemperatureC s1.calib s1.adc_T
  ({ s1 with t_fine := r.1 }, r.2)

/-- `ReadHumidity`: computes from the stored sample and `t_fine`; writes
no global. -/
def ReadHumidityS (s : DriverState) : DriverState × Int :=
  (s, readHumidityC s.calib s.adc_H s.t_fine)

/-- `ReadPressure`: computes from the stored sample and `t_fine`; writes
no global. -/
def ReadPressureS (s : DriverState) : DriverState × Option Int :=
  (s, readPressureC s.calib s.adc_P s.t_fine)

/-! ### Concrete data used by the evaluations -/

/-- The all-zero calibration set (degenerate / uninitialized device). -/
def zeroCalib : Calib :=
  { dig_T1 := 0
    dig_T2 := 0
    dig_T3 := 0
    dig_P1 := 0
    dig_P2 := 0
    dig_P3 := 0
    dig_P4 := 0
    dig_P5 := 0
    dig_P6 := 0
    dig_P7 := 0
    dig_P8 := 0
    dig_P9 := 0
    dig_H1 := 0
    dig_H2 := 0
    dig_H3 := 0
    dig_H4 := 0
    dig_H5 := 0
    dig_H6 := 0 }

/-- Bosch's published sample calibration values (BMP280 datasheet,
worked example for the temperature/pressure compensation): T1..T3 and
P1..P9; the humidity coefficients are not part of the published sample and
are set to zero here (they do not enter the T and P computations). -/
def boschSampleCalib : Calib :=
  { dig_T1 := 27504
    dig_T2 := 26435
    dig_T3 := -1000
    dig_P1 := 36477
    dig_P2 := -10685
    dig_P3 := 3024
    dig_P4 := 2855
    dig_P5 := 140
    dig_P6 := -7
    dig_P7 := 15500
    dig_P8 := -14600
    dig_P9 := 6000
    dig_H1 := 0
    dig_H2 := 0
    dig_H3 := 0
    dig_H4 := 0
    dig_H5 := 0
    dig_H6 := 0 }

/-- Response trace of the register scenario of the H4/H5 unpacking test:
chip id 0x60, status byte clear, zero T/P and H1..H3 calibration bytes,
then register E4 = 0x1A, E5 = 0x2B (read twice: once for H4, once for H5),
E6 = 0x3C, and H6 = 0. -/
def c2Trace : List Nat :=
  [0x60, 0x00] ++ List.replicate 24 0 ++ [0, 0, 0, 0, 0x1A, 0x2B, 0x3C, 0x2B, 0]

/-! ### Helper lemmas -/

theorem toS32_lb (x : Int) : -2147483648 ≤ toS32 x := by
  unfold toS32; omega

theorem toS32_ub (x : Int) : toS32 x < 2147483648 := by
  unfold toS32; omega

theorem toS32_eq_self (x : Int) (h1 : -2147483648 ≤ x) (h2 : x < 2147483648) :
    toS32 x = x := by
  unfold toS32; omega

theorem toU32_eq_self (x : Int) (h1 : 0 ≤ x) (h2 : x < 4294967296) :
    toU32 x = x := by
  unfold toU32; omega

theorem cdiv2048_bound (a : Int) (h1 : -2147483648 ≤ a) (h2 : a < 2147483648) :
    -1048576 ≤ cdiv a 2048 ∧ cdiv a 2048 ≤ 1048575 := by
  unfold cdiv; split <;> omega

theorem cdiv16384_bound (a : Int) (h1 : -2147483648 ≤ a) (h2 : a < 2147483648) :
    -131072 ≤ cdiv a 16384 ∧ cdiv a 16384 ≤ 131071 := by
  unfold cdiv; split <;> omega

theorem tempVar1_bound (c : Calib) (adcT : Int) :
    -1048576 ≤ tempVar1 c adcT ∧ tempVar1 c adcT ≤ 1048575 := by
  unfold tempVar1
  exact cdiv2048_bound _ (toS32_lb _) (toS32_ub _)

theorem tempVar2_bound (c : Calib) (adcT : Int) :
    -131072 ≤ tempVar2 c adcT ∧ tempVar2 c adcT ≤ 131071 := by
  unfold tempVar2
  exact cdiv16384_bound _ (toS32_lb _) (toS32_ub _)

theorem and15_eq_mod (x : Nat) : x &&& 15 = x % 16 := by
  have h := Nat.and_pow_two_sub_one_eq_mod x 4
  norm_num at h
  exact h

theorem shr4_eq_div (x : Nat) : x >>> 4 = x / 16 := by
  have h := Nat.shiftRight_eq_div_pow x 4
  norm_num at h
  exact h

theorem shl4_or_eq (a b : Nat) (hb : b < 16) : (a <<< 4) ||| b = 16 * a + b := by
  have h1 : a <<< 4 = 2 ^ 4 * a := by rw [Nat.shiftLeft_eq, Nat.mul_comm]
  rw [h1, ← Nat.mul_add_lt_is_or hb a]

theorem and2048_test (v : Nat) : v &&& 2048 = v / 2048 % 2 * 2048 := by
  have h1 := Nat.and_two_pow v 11
  have h2 := Nat.toNat_testBit v 11
  rw [h2] at h1
  norm_num at h1 ⊢
  exact h1

theorem or61440_eq (v : Nat) (hv : v < 4096) : v ||| 61440 = v + 61440 := by
  have h2 := (Nat.mul_add_lt_is_or (i := 12) (b := v) hv 15).symm
  calc v ||| 61440 = 61440 ||| v := Nat.lor_comm v 61440
    _ = 2 ^ 12 * 15 ||| v := by norm_num
    _ = 2 ^ 12 * 15 + v := h2
    _ = v + 61440 := by omega

theorem cfgRoundTrip : ∀ filt ∈ List.range 5, ∀ stby ∈ List.range 8,
    ((((stby <<< 5) ||| (filt <<< 2)) &&& 0xFC) >>> 2) &&& 7 = filt ∧
    (((stby <<< 5) ||| (filt <<< 2)) &&& 0xFC) >>> 5 = stby ∧
    ((stby <<< 5) ||| (filt <<< 2)) &&& 0xFC < 256 := by decide

theorem measRoundTrip : ∀ mode ∈ [0, 1, 3], ∀ Ts ∈ List.range 6, ∀ Ps ∈ List.range 6,
    (((Ts <<< 5) ||| (Ps <<< 2)) ||| mode) &&& 3 = mode ∧
    (((Ts <<< 5) ||| (Ps <<< 2)) ||| mode) >>> 5 = Ts ∧
    ((((Ts <<< 5) ||| (Ps <<< 2)) ||| mode) >>> 2) &&& 7 = Ps ∧
    ((Ts <<< 5) ||| (Ps <<< 2)) ||| mode < 256 := by decide

/-! ### Claim theorems -/

/-- C1: on Bosch's published sample calibration values and raw ADC readings
(adc_T = 519888, adc_P = 415148), the repository's compensation does NOT
reproduce the 32-bit fixed-point reference algorithm exactly: the
temperature output agrees (2508 hundredths of a degreeC) but the internal
t_fine differs (128423 vs 128422) and the pressure output differs
(100654 Pa vs 100656 Pa), because the code's C divisions truncate toward
zero where the reference's arithmetic shifts floor. -/
theorem c1_known_vector_divergence :
    readTemperatureC boschSampleCalib 519888 = (128423, 2508) ∧
    refTemperature boschSampleCalib 519888 = (128422, 2508) ∧
    readPressureC boschSampleCalib 415148 128423 = some 100654 ∧
    refPressure boschSampleCalib 415148 128422 = some 100656 ∧
    (100654 : Int) ≠ 100656 := by
  refine ⟨by decide, by decide, by decide, by decide, by decide⟩

/-- C2 counterexample: with register bytes E4 = 0x1A, E5 = 0x2B, E6 = 0x3C,
`BME280_begin` stores dig_H4 = 0x1AB, not (0x1A<<4)|(0x3C & 0x0F) = 0x1AC
as the claim states: the low nibble comes from register E5, not E6. -/
theorem c2_counterexample :
    (BME280_begin 3 1 1 1 0 0 c2Trace).map
      (fun o => o.calib.map (fun c => c.dig_H4)) = some (some 0x1AB) ∧
    (0x1AB : Int) ≠ 0x1AC := by
  refine ⟨by decide, by decide⟩

/-- C2 amended: with register bytes E4 = 0x1A, E5 = 0x2B, E6 = 0x3C,
`BME280_begin` yields dig_H4 = (0x1A<<4)|(0x2B & 0x0F) = 0x1AB (no sign
extension, bit 11 clear) and dig_H5 = (0x3C<<4)|(0x2B>>4) = 0x3C2. -/
theorem c2_amended_unpacking :
    (BME280_begin 3 1 1 1 0 0 c2Trace).map
      (fun o => o.calib.map (fun c => (c.dig_H4, c.dig_H5))) =
      some (some (0x1AB, 0x3C2)) ∧
    (0x1AB : Nat) = (0x1A <<< 4) ||| (0x2B &&& 0x0F) ∧
    (0x3C2 : Nat) = (0x3C <<< 4) ||| (0x2B >>> 4) := by
  refine ⟨by decide, by decide, by decide⟩

/-- C3: for every pair of register bytes, the packed value is
(E4 byte << 4) | (E5 byte & 0x0F) for H4, and (E6 byte << 4) | (E5 byte
>> 4) for H5, with 0xF000 OR'd in exactly when bit 11 (mask 0x0800) is
set; equivalently the stored signed field holds the 12-bit value,
sign-extended. -/
theorem c3_h4_h5_packing (e4 e5 e6 : Nat)
    (h4 : e4 < 256) (h5 : e5 < 256) (h6 : e6 < 256) :
    unpackH4raw e4 e5 =
      (if ((e4 <<< 4) ||| (e5 &&& 0x0F)) &&& 0x0800 ≠ 0
       then ((e4 <<< 4) ||| (e5 &&& 0x0F)) ||| 0xF000
       else (e4 <<< 4) ||| (e5 &&& 0x0F)) ∧
    unpackH5raw e5 e6 =
      (if ((e6 <<< 4) ||| (e5 >>> 4)) &&& 0x0800 ≠ 0
       then ((e6 <<< 4) ||| (e5 >>> 4)) ||| 0xF000
       else (e6 <<< 4) ||| (e5 >>> 4)) ∧
    unpackH4 e4 e5 =
      (if 2048 ≤ 16 * e4 + e5 % 16
       then (16 * e4 + e5 % 16 : Int) - 4096
       else (16 * e4 + e5 % 16 : Int)) ∧
    unpackH5 e5 e6 =
      (if 2048 ≤ 16 * e6 + e5 / 16
       then (16 * e6 + e5 / 16 : Int) - 4096
       else (16 * e6 + e5 / 16 : Int)) := by
  have hm : e5 % 16 < 16 := Nat.mod_lt _ (by omega)
  have hd : e5 / 16 < 16 := by omega
  have hbase4 : (e4 <<< 4) ||| (e5 &&& 0x0F) = 16 * e4 + e5 % 16 := by
    rw [and15_eq_mod]
    exact shl4_or_eq e4 (e5 % 16) hm
  have hbase5 : (e6 <<< 4) ||| (e5 >>> 4) = 16 * e6 + e5 / 16 := by
    rw [shr4_eq_div]
    exact shl4_or_eq e6 (e5 / 16) hd
  have hlt4 : 16 * e4 + e5 % 16 < 4096 := by omega
  have hlt5 : 16 * e6 + e5 / 16 < 4096 := by omega
  refine ⟨rfl, rfl, ?_, ?_⟩
  · simp only [unpackH4, unpackH4raw]
    rw [hbase4, and2048_test, or61440_eq _ hlt4]
    unfold toS16
    split <;> split <;> (push_cast; omega)
  · simp only [unpackH5, unpackH5raw]
    rw [hbase5, and2048_test, or61440_eq _ hlt5]
    unfold toS16
    split <;> split <;> (push_cast; omega)

/-- C3 witness: the packing theorem applied at the concrete bytes
E4 = 0x1A, E5 = 0x2B, E6 = 0x3C. -/
theorem c3_h4_h5_packing_witness :
    ((0x1A : Nat) < 256 ∧ (0x2B : Nat) < 256 ∧ (0x3C : Nat) < 256) ∧
    unpackH4 0x1A 0x2B = 0x1AB ∧ unpackH5 0x2B 0x3C = 0x3C2 := by
  have h := c3_h4_h5_packing 0x1A 0x2B 0x3C (by decide) (by decide) (by decide)
  refine ⟨⟨by decide, by decide, by decide⟩, ?_, ?_⟩
  · rw [h.2.2.1]; decide
  · rw [h.2.2.2]; decide

/-- C4: whenever the pressure compensation's final `var1` is zero,
`ReadPressure` takes the guarded failure return (result `none`, modelling
`return 0` with the output pointer unwritten), before any division by
`var1`. -/
theorem c4_pressure_zero_guard (c : Calib) (adcP tfine : Int)
    (h : pressureVar1 c tfine = 0) :
    readPressureC c adcP tfine = none := by
  unfold readPressureC
  rw [h]
  simp

/-- C4 witness: the all-zero calibration set (in particular P1 = 0) forces
`var1 = 0`, and `ReadPressure` fails on it. -/
theorem c4_pressure_zero_guard_witness :
    pressureVar1 zeroCalib 0 = 0 ∧ readPressureC zeroCalib 415148 0 = none :=
  ⟨by decide, c4_pressure_zero_guard zeroCalib 415148 0 (by decide)⟩

/-- C5: `BME280_begin` returns 0 with no register writes whenever the
chip-ID byte differs from 0x60 (for every continuation of the trace, so
no later response influences the outcome), and returns 1 — after writing
soft-reset 0xB6 to 0xE0 and the three configuration bytes — whenever the
chip-ID byte is 0x60 and the device supplies a clearing status byte and
the 33 calibration bytes. -/
theorem c5_begin_chip_id (mode Ts Hs Ps filt stby chip : Nat) (rest : List Nat) :
    (chip ≠ 0x60 →
      BME280_begin mode Ts Hs Ps filt stby (chip :: rest) = some ⟨0, [], none⟩) ∧
    (chip = 0x60 → ∀ r c l, statusPoll rest = some r → readCalib r = some (c, l) →
      BME280_begin mode Ts Hs Ps filt stby (chip :: rest) =
        some ⟨1, [(0xE0, 0xB6),
                  (0xF2, (BME280_Configure mode Ts Hs Ps filt stby).1),
                  (0xF5, (BME280_Configure mode Ts Hs Ps filt stby).2.1),
                  (0xF4, (BME280_Configure mode Ts Hs Ps filt stby).2.2)],
              some c⟩) := by
  constructor
  · intro h
    simp [BME280_begin, h]
  · intro h r c l hr hc
    subst h
    simp [BME280_begin, hr, hc, BME280_Configure]

/-- C5 witness: chip id 0x61 fails with no writes; chip id 0x60 with a
clear status byte and 33 zero calibration bytes succeeds with exactly the
soft-reset and the three configuration writes. -/
theorem c5_begin_chip_id_witness :
    BME280_begin 0 0 0 0 0 0 [0x61] = some ⟨0, [], none⟩ ∧
    BME280_begin 0 0 0 0 0 0 (0x60 :: 0x00 :: List.replicate 33 0) =
      some ⟨1, [(0xE0, 0xB6), (0xF2, 0), (0xF5, 0), (0xF4, 0)], some zeroCalib⟩ := by
  constructor
  · exact (c5_begin_chip_id 0 0 0 0 0 0 0x61 []).1 (by decide)
  · exact (c5_begin_chip_id 0 0 0 0 0 0 0x60 (0x00 :: List.replicate 33 0)).2 rfl
      (List.replicate 33 0) zeroCalib [] (by rfl) (by rfl)

/-- C6: for every adc_T and calibration set, `ReadTemperature` stores
t_fine = var1 + var2 (the two polynomial terms, whose magnitudes are small
enough that the 32-bit sum cannot wrap) and outputs exactly
(t_fine * 5 + 128) / 256 in C truncating division. -/
theorem c6_temperature_structure (c : Calib) (adcT : Int) :
    (readTemperatureC c adcT).1 = tempVar1 c adcT + tempVar2 c adcT ∧
    (readTemperatureC c adcT).2 =
      cdiv ((readTemperatureC c adcT).1 * 5 + 128) 256 := by
  have h1 := tempVar1_bound c adcT
  have h2 := tempVar2_bound c adcT
  have hsum : toS32 (tempVar1 c adcT + tempVar2 c adcT) =
      tempVar1 c adcT + tempVar2 c adcT :=
    toS32_eq_self _ (by omega) (by omega)
  have hfst : (readTemperatureC c adcT).1 = tempVar1 c adcT + tempVar2 c adcT := by
    unfold readTemperatureC
    exact hsum
  refine ⟨hfst, ?_⟩
  have h5 : toS32 ((tempVar1 c adcT + tempVar2 c adcT) * 5) =
      (tempVar1 c adcT + tempVar2 c adcT) * 5 :=
    toS32_eq_self _ (by omega) (by omega)
  have h6 : toS32 ((tempVar1 c adcT + tempVar2 c adcT) * 5 + 128) =
      (tempVar1 c adcT + tempVar2 c adcT) * 5 + 128 :=
    toS32_eq_self _ (by omega) (by omega)
  unfold readTemperatureC
  rw [hfst] at *
  simp only [readTemperatureC, hsum, h5, h6]

/-- C7: discovery tries the low write-form address 0xEC first and the high
one 0xEE second, returning the first that acknowledges (`I2C1_Wr` result
0) without probing further, and 0 when neither acknowledges. -/
theorem c7_discovery_order (wr : Nat → Nat) :
    BME280_TestConnection wr =
      (if wr 0xEC = 0 then 0xEC else if wr 0xEE = 0 then 0xEE else 0) := by
  unfold BME280_TestConnection testConnLoop testConnStep
  by_cases h1 : wr 0xEC = 0 <;> by_cases h2 : wr 0xEE = 0 <;>
    simp [h1, h2, testConnLoop, testConnStep]

/-- C8: for every adc_H, t_fine and calibration set, `ReadHumidity` clamps
the intermediate into [0, 419430400] before the final division by 4096
(right shift by 12), so the stored output is always in [0, 102400]. -/
theorem c8_humidity_clamp_range (c : Calib) (adcH tfine : Int) :
    readHumidityC c adcH tfine = toU32 (cdiv (humidityClamped c adcH tfine) 4096) ∧
    0 ≤ humidityClamped c adcH tfine ∧ humidityClamped c adcH tfine ≤ 419430400 ∧
    0 ≤ readHumidityC c adcH tfine ∧ readHumidityC c adcH tfine ≤ 102400 := by
  have hcl : 0 ≤ humidityClamped c adcH tfine ∧
      humidityClamped c adcH tfine ≤ 419430400 := by
    simp only [humidityClamped]
    split <;> split <;> omega
  have hq : 0 ≤ cdiv (humidityClamped c adcH tfine) 4096 ∧
      cdiv (humidityClamped c adcH tfine) 4096 ≤ 102400 := by
    unfold cdiv; split <;> omega
  have hu : readHumidityC c adcH tfine = cdiv (humidityClamped c adcH tfine) 4096 := by
    unfold readHumidityC
    exact toU32_eq_self _ hq.1 (by omega)
  refine ⟨rfl, hcl.1, hcl.2, ?_, ?_⟩ <;> rw [hu]
  exacts [hq.1, hq.2]

/-- C9: the three configuration bytes are exactly ctrl_hum = hSampling,
config = (standby<<5 | filter<<2) & 0xFC and control =
(tSampling<<5 | pSampling<<2 | mode), and over the documented enumeration
ranges the packing decodes back to the original argument tuple. -/
theorem c9_configure_roundtrip (mode Ts Hs Ps filt stby : Nat)
    (hmode : mode ∈ [0, 1, 3]) (hTs : Ts < 6) (hHs : Hs < 6) (hPs : Ps < 6)
    (hfilt : filt < 5) (hstby : stby < 8) :
    BME280_Configure mode Ts Hs Ps filt stby =
      (Hs, ((stby <<< 5) ||| (filt <<< 2)) &&& 0xFC,
       ((Ts <<< 5) ||| (Ps <<< 2)) ||| mode) ∧
    decodeConfig Hs (((stby <<< 5) ||| (filt <<< 2)) &&& 0xFC)
      (((Ts <<< 5) ||| (Ps <<< 2)) ||| mode) = (mode, Ts, Hs, Ps, filt, stby) := by
  have hc := cfgRoundTrip filt (by simp [List.mem_range]; omega)
    stby (by simp [List.mem_range]; omega)
  have hm := measRoundTrip mode hmode Ts (by simp [List.mem_range]; omega)
    Ps (by simp [List.mem_range]; omega)
  constructor
  · unfold BME280_Configure
    refine Prod.ext ?_ (Prod.ext ?_ ?_) <;> simp only
    · exact Nat.mod_eq_of_lt (by omega)
    · exact Nat.mod_eq_of_lt (by omega)
    · exact Nat.mod_eq_of_lt (by omega)
  · unfold decodeConfig
    simp only [hc.1, hc.2.1, hm.1, hm.2.1, hm.2.2.1]

/-- C9 witness: the round-trip at mode 3 (normal), T x16, H x2, P x1,
filter coefficient 16, standby 20 ms. -/
theorem c9_configure_roundtrip_witness :
    BME280_Configure 3 5 2 1 4 7 = (2, 240, 167) ∧
    decodeConfig 2 240 167 = (3, 5, 2, 1, 4, 7) := by
  have h := c9_configure_roundtrip 3 5 2 1 4 7 (by decide) (by decide)
    (by decide) (by decide) (by decide) (by decide)
  exact ⟨h.1.trans (by decide), (by decide : decodeConfig 2 240 167 = _).trans rfl⟩

/-- C10: `ReadHumidity` and `ReadPressure` leave the driver state (raw
sample, t_fine, calibration) unchanged and compute only from the stored
fields; `ReadTemperature` is the one that refreshes the raw sample via
`BME280_Update` and rewrites t_fine, so humidity and pressure after it are
functions of that burst's sample and its t_fine. -/
theorem c10_read_frame (b : Burst) (s : DriverState) :
    (ReadHumidityS s).1 = s ∧
    (ReadPressureS s).1 = s ∧
    (ReadHumidityS s).2 = readHumidityC s.calib s.adc_H s.t_fine ∧
    (ReadPressureS s).2 = readPressureC s.calib s.adc_P s.t_fine ∧
    (ReadTemperatureS b s).1 =
      { BME280_Update b s with
        t_fine := (readTemperatureC s.calib (BME280_Update b s).adc_T).1 } ∧
    (ReadHumidityS (ReadTemperatureS b s).1).2 =
      readHumidityC s.calib (BME280_Update b s).adc_H
        (readTemperatureC s.calib (BME280_Update b s).adc_T).1 ∧
    (ReadPressureS (ReadTemperatureS b s).1).2 =
      readPressureC s.calib (BME280_Update b s).adc_P
        (readTemperatureC s.calib (BME280_Update b s).adc_T).1 :=
  ⟨rfl, rfl, rfl, rfl, rfl, rfl, rfl⟩

end BME280
